import Mathlib

/-!
Shallow embedding of the claim-evaluation core of `llm_research_app`
(`src/analysis/metrics.py` and `src/analysis/bias_screen.py`).

Python floats are modelled as `ℚ` (exact arithmetic), Python strings as
`String`/`List Char`.  The two external libraries used by the source are
modelled as oracle parameters:

* `rapidfuzz.fuzz.token_set_ratio` becomes a parameter
  `tsr : String → String → ℚ` (its 0–100 score);
* `pint` unit conversion becomes a parameter
  `conv : ℚ → String → String → Option ℚ` where `conv v u u'` is the
  magnitude of `Quantity(v, u).to(u')`, and `none` models
  `UndefinedUnitError`/`DimensionalityError` (raised by constructing either
  quantity or by the conversion).

Python's `re` scans are embedded directly: the only regex constructs used by
the modelled code are literal characters, `.`, a trailing `?` on a literal,
word boundaries `\b`, the classes `\d`, `\s`, `\w`, `[A-Za-z]`, and `[.!?]+`
style splitting, all of which are implemented below on `List Char`.

Fallible Python code (the uncaught `ZeroDivisionError` in
`validate_numeric_claim` when `spec_value == 0`) is modelled with `Option`:
`none` means the Python function raises.
-/

/- Batteries marks the `Rat` arithmetic operations `@[irreducible]`, which
only affects elaborator-side evaluation (the kernel ignores reducibility
attributes).  Restoring the default lets `decide` evaluate the concrete
rational computations appearing in witnesses and counterexamples. -/
set_option allowUnsafeReducibility true in
attribute [semireducible] Rat.add Rat.mul Rat.inv Rat.sub Rat.neg

namespace LlmApp

/-! ### Character classes (Python `re` classes, ASCII fragment) -/

/-- Python `\w`: word character (letter, digit or underscore). -/
def isWordChar (c : Char) : Bool := c.isAlphanum || c = '_'

/-- Python `[A-Za-z]`. -/
def isAsciiLetter (c : Char) : Bool :=
  ('a' ≤ c && c ≤ 'z') || ('A' ≤ c && c ≤ 'Z')

/-- Python `\s` (ASCII fragment). -/
def isSpaceChar (c : Char) : Bool := c.isWhitespace

/-! ### Substring containment (Python `in` on strings) -/

/-- Python `str.lower()` (ASCII fragment), done characterwise.
(`String.toLower` itself is avoided only because its position-based
recursion does not reduce during elaboration; this is the same function.) -/
def strLower (s : String) : String := ⟨s.data.map Char.toLower⟩

/-- Test `listStartsWith s p`: `p` is a prefix of `s`. -/
def listStartsWith : List Char → List Char → Bool
  | _, [] => true
  | [], _ :: _ => false
  | a :: s, b :: p => a = b && listStartsWith s p

/-- Test `listHasSub s n`: `n` occurs in `s` as a contiguous run
(Python `n in s`). -/
def listHasSub : List Char → List Char → Bool
  | s, n =>
    listStartsWith s n ||
      match s with
      | [] => false
      | _ :: t => listHasSub t n

/-! ### A small regex engine

Covers exactly the pattern shapes used by `detect_overclaims`
(`src/analysis/metrics.py`, lines 451–458): `\b`, literal characters, `.`
(any character except newline) and an optional literal `c?`. -/

inductive RAtom where
  | lit (c : Char)
  | anyc
  | optc (c : Char)
  | bnd
  deriving DecidableEq, Repr

/-- Is the character at index `j` a word character (`false` out of range)? -/
def wordAt (s : List Char) (j : Nat) : Bool :=
  match s.get? j with
  | some c => isWordChar c
  | none => false

/-- Python `\b`: position `j` lies between a word and a non-word character
(string boundaries count as non-word). -/
def atBoundary (s : List Char) (j : Nat) : Bool :=
  xor (if j = 0 then false else wordAt s (j - 1)) (wordAt s j)

/-- Match a list of atoms against `s` starting at `j`; returns the end
index of the match.  `optc` is greedy with backtracking, as in Python. -/
def matchFrom : List RAtom → List Char → Nat → Option Nat
  | [], _, j => some j
  | .bnd :: rest, s, j =>
      if atBoundary s j then matchFrom rest s j else none
  | .lit c :: rest, s, j =>
      match s.get? j with
      | some d => if d = c then matchFrom rest s (j + 1) else none
      | none => none
  | .anyc :: rest, s, j =>
      match s.get? j with
      | some d => if d = '\n' then none else matchFrom rest s (j + 1)
      | none => none
  | .optc c :: rest, s, j =>
      match s.get? j with
      | some d =>
          if d = c then
            match matchFrom rest s (j + 1) with
            | some e => some e
            | none => matchFrom rest s j
          else matchFrom rest s j
      | none => matchFrom rest s j

/-- Python `s[i:j]` on character lists. -/
def slice (s : List Char) (i j : Nat) : List Char :=
  (s.drop i).take (j - i)

/-- Scanner for `re.findall`: leftmost, non-overlapping matches.
`fuel` bounds the number of scan steps (`s.length + 1` always suffices
since every step advances the position). -/
def findallGo (p : List RAtom) (s : List Char) : Nat → Nat → List (List Char)
  | _, 0 => []
  | j, fuel + 1 =>
    if j ≥ s.length then []
    else
      match matchFrom p s j with
      | some e => slice s j e :: findallGo p s (if j < e then e else j + 1) fuel
      | none => findallGo p s (j + 1) fuel

/-- Python `re.findall(p, s)` for the supported pattern shapes
(no capture groups, so full match strings are returned). -/
def reFindall (p : List RAtom) (s : List Char) : List (List Char) :=
  findallGo p s 0 (s.length + 1)

/-- Pattern `\bw\b` for a literal word `w`. -/
def wpat (w : String) : List RAtom :=
  .bnd :: (w.data.map RAtom.lit ++ [.bnd])

/-! ### Word tokenisation and sentence splitting -/

/-- Python `re.findall(r'\w+', s)`: maximal runs of word characters. -/
def wordRuns (s : List Char) : List (List Char) :=
  (s.splitOnP (fun c => !isWordChar c)).filter (· ≠ [])

/-- Python `str.strip()`: trim whitespace on both ends. -/
def pyStrip (s : List Char) : List Char :=
  ((s.dropWhile isSpaceChar).reverse.dropWhile isSpaceChar).reverse

/-- Python `str.split()` (no argument): split on whitespace runs,
dropping empty pieces. -/
def pySplitWs (s : List Char) : List (List Char) :=
  (s.splitOnP isSpaceChar).filter (· ≠ [])

/-! ### Decisions and result records (`src/analysis/metrics.py`, 19–54) -/

inductive Decision where
  | supported
  | contradicted
  | unsupported
  | ambiguous
  deriving DecidableEq, Repr

/-- The `ClaimMatch` dataclass. -/
structure ClaimMatch where
  decision : Decision
  matched_claim : String
  claim_type : String
  confidence : ℚ
  deriving DecidableEq, Repr

/-- One extracted numeric claim (`extract_numeric_claims` entry:
`{"value": .., "unit": .., "context": ..}`). -/
structure NumEntry where
  value : ℚ
  unit : String
  context : String
  deriving DecidableEq, Repr

/-- One `numeric_errors` entry of `evaluate_output`
(`{"spec": .., "output": .., "error": ..}`). -/
structure NumErr where
  spec : NumEntry
  output : NumEntry
  error : Option String
  deriving DecidableEq, Repr

/-- One `unit_errors` entry of `evaluate_output`
(`{"spec": .., "output": ..}`). -/
structure UnitErr where
  spec : NumEntry
  output : NumEntry
  deriving DecidableEq, Repr

/-- The `details` dict assembled at the end of `evaluate_output`. -/
structure Details where
  auth_scores : List (String × ℚ)
  output_numerics : List NumEntry
  num_specs : Nat
  num_authorized : Nat
  num_prohibited : Nat
  deriving DecidableEq, Repr

/-- The `EvaluationResult` dataclass. -/
structure EvaluationResult where
  run_id : String
  decision : Decision
  hit_rate : ℚ
  contradiction_rate : ℚ
  unsupported_rate : ℚ
  ambiguous_rate : ℚ
  overclaim_rate : ℚ
  matched_authorized : List String
  violated_prohibited : List String
  numeric_errors : List NumErr
  unit_errors : List UnitErr
  overclaims : List String
  details : Details
  deriving DecidableEq, Repr

/-- The product-YAML fields read by `evaluate_output`
(`product_yaml.get(..., [])`). -/
structure ProductYaml where
  specs : List String
  authorized_claims : List String
  prohibited_or_unsupported_claims : List String
  deriving DecidableEq, Repr

/-! ### Rate helpers (`src/analysis/metrics.py`, 129–148) -/

/-- Does a decision count toward the overclaim rate? -/
def isProblematic : Decision → Bool
  | .contradicted => true
  | .unsupported => true
  | _ => false

/-- Python `calculate_overclaim_rate`: proportion of Contradicted + Unsupported. -/
def calculate_overclaim_rate (decisions : List Decision) : ℚ :=
  if decisions = [] then 0
  else (decisions.countP isProblematic : ℚ) / (decisions.length : ℚ)

/-! ### Fuzzy matching (`src/analysis/metrics.py`, 172–251) -/

/-- Python `fuzzy_match`: literal case-insensitive containment counts as score
100; otherwise the `token_set_ratio` oracle is consulted. -/
def fuzzy_match (tsr : String → String → ℚ) (text target : String)
    (threshold : ℚ) : Bool × ℚ :=
  let text_lower := strLower text
  let target_lower := strLower target
  if listHasSub text_lower.data target_lower.data then (true, 100)
  else
    let score := tsr target_lower text_lower
    (decide (threshold ≤ score), score)

/-- Python `check_authorized_claims`: returns `(hit_rate, matched, all_scores)`. -/
def check_authorized_claims (tsr : String → String → ℚ)
    (output_text : String) (authorized_claims : List String)
    (threshold : ℚ) : ℚ × List String × List (String × ℚ) :=
  if authorized_claims = [] then (0, [], [])
  else
    let matched := authorized_claims.filter
      (fun c => (fuzzy_match tsr output_text c threshold).1)
    let all_scores := authorized_claims.map
      (fun c => (c, (fuzzy_match tsr output_text c threshold).2))
    ((matched.length : ℚ) / (authorized_claims.length : ℚ), matched, all_scores)

/-- Python `check_prohibited_claims`: returns `(contradiction_rate, violated)`. -/
def check_prohibited_claims (tsr : String → String → ℚ)
    (output_text : String) (prohibited_claims : List String)
    (threshold : ℚ) : ℚ × List String :=
  if prohibited_claims = [] then (0, [])
  else
    let violated := prohibited_claims.filter
      (fun c => (fuzzy_match tsr output_text c threshold).1)
    ((violated.length : ℚ) / (prohibited_claims.length : ℚ), violated)

/-! ### Numeric extraction (`src/analysis/metrics.py`, 256–288)

Pattern: `(\d+(?:[.,]\d+)?)\s*([A-Za-z]+)\b`.  As analysed below, every
backtracking alternative of this pattern other than maximal munch fails
(each shorter choice leaves the next sub-pattern facing a character it
cannot accept), so the match at one start position is deterministic:
maximal digits, then an optional `[.,]`+maximal digits, maximal
whitespace, maximal letters, and a trailing word boundary. -/

/-- Length of the maximal leading run satisfying `p`. -/
def countLeading (p : Char → Bool) : List Char → Nat
  | [] => 0
  | c :: rest => if p c then countLeading p rest + 1 else 0

/-- Try to match `(\d+(?:[.,]\d+)?)\s*([A-Za-z]+)\b` at position `i` of
`s`.  Returns `(match_end, group1, group2)`. -/
def matchNumUnit (s : List Char) (i : Nat) :
    Option (Nat × List Char × List Char) :=
  let rest := s.drop i
  let d1 := countLeading (·.isDigit) rest
  if d1 = 0 then none
  else
    let afterD1 := rest.drop d1
    let g1len :=
      match afterD1 with
      | c :: r2 =>
          if c = '.' ∨ c = ',' then
            let d2 := countLeading (·.isDigit) r2
            if d2 = 0 then d1 else d1 + 1 + d2
          else d1
      | [] => d1
    let afterG1 := rest.drop g1len
    let wsLen := countLeading isSpaceChar afterG1
    let afterWs := afterG1.drop wsLen
    let letLen := countLeading isAsciiLetter afterWs
    if letLen = 0 then none
    else
      let afterLet := afterWs.drop letLen
      let boundaryOk :=
        match afterLet with
        | [] => true
        | c :: _ => !isWordChar c
      if boundaryOk then
        some (i + g1len + wsLen + letLen, rest.take g1len, afterWs.take letLen)
      else none

/-- Python `int(digit string)`. -/
def digitsToNat (cs : List Char) : Nat :=
  cs.foldl (fun n c => n * 10 + (c.toNat - '0'.toNat)) 0

/-- Python `float(value_str)` restricted to the strings reachable here
(`\d+` or `\d+.\d+` after comma removal); `none` models `ValueError`. -/
def parseFloatQ (cs : List Char) : Option ℚ :=
  let intPart := cs.takeWhile (·.isDigit)
  let rest := cs.dropWhile (·.isDigit)
  if intPart = [] then none
  else
    match rest with
    | [] => some (digitsToNat intPart : ℚ)
    | '.' :: frac =>
        if frac ≠ [] ∧ frac.all (·.isDigit) then
          some ((digitsToNat intPart : ℚ) +
            (digitsToNat frac : ℚ) / ((10 : ℚ) ^ frac.length))
        else none
    | _ => none

/-- One scan step of `re.finditer` for `extract_numeric_claims`, building
the entry list.  A match whose number part fails to parse is skipped
(`except ValueError: continue`). -/
def extractGo (s : List Char) : Nat → Nat → List NumEntry
  | _, 0 => []
  | i, fuel + 1 =>
    if i ≥ s.length then []
    else
      match matchNumUnit s i with
      | some (e, g1, g2) =>
          let tail := extractGo s (if i < e then e else i + 1) fuel
          match parseFloatQ (g1.filter (· ≠ ',')) with
          | some v =>
              let ctxStart := i - 20
              let ctxEnd := min s.length (e + 20)
              { value := v, unit := ⟨g2⟩,
                context := ⟨pyStrip (slice s ctxStart ctxEnd)⟩ } :: tail
          | none => tail
      | none => extractGo s (i + 1) fuel

/-- Python `extract_numeric_claims`: scan text for `<number><optional unit>`
tokens; `value_str.replace(',', '')` is the comma `filter`, the context is
±20 characters around the match, stripped. -/
def extract_numeric_claims (text : String) : List NumEntry :=
  extractGo text.data 0 (text.data.length + 1)

/-! ### Numeric validation (`src/analysis/metrics.py`, 291–346) -/

/-- Python `validate_numeric_claim`.  `conv` is the pint oracle (`none` models a
`pint.UndefinedUnitError`/`DimensionalityError`, caught by the source).
The outer `Option` is `none` exactly when the Python code raises an
uncaught `ZeroDivisionError` (`spec_value == 0`). -/
def validate_numeric_claim (conv : ℚ → String → String → Option ℚ)
    (claim_value : ℚ) (claim_unit : String)
    (spec_value : ℚ) (spec_unit : String)
    (tolerance : ℚ) : Option (Bool × Option String) :=
  match conv claim_value claim_unit spec_unit with
  | some claim_in_spec_units =>
      if spec_value = 0 then none
      else
        let relative_error := |claim_in_spec_units - spec_value| / spec_value
        if relative_error ≤ tolerance then some (true, none)
        else some (false, some "Numeric mismatch")
  | none =>
      if strLower claim_unit = strLower spec_unit then
        if spec_value = 0 then none
        else
          let relative_error := |claim_value - spec_value| / spec_value
          if relative_error ≤ tolerance then some (true, none)
          else some (false, some "Numeric mismatch")
      else some (false, some "Unit mismatch")

/-! ### Overclaim detection (`src/analysis/metrics.py`, 441–467) -/

/-- The `superlatives` pattern list, in source order. -/
def superlativePatterns : List (List RAtom) :=
  [ wpat "best", wpat "worst", wpat "greatest", wpat "perfect",
    wpat "ultimate", wpat "supreme", wpat "unbeatable", wpat "unmatched",
    wpat "unrivaled", wpat "unparalleled", wpat "incredible", wpat "amazing",
    wpat "everyone", wpat "always", wpat "never",
    .bnd :: ("guarantee".data.map RAtom.lit ++ [.optc 'd', .bnd]),
    wpat "proven", wpat "certified", wpat "medically", wpat "clinically",
    wpat "#1",
    .bnd :: ("top".data.map RAtom.lit ++ [.anyc] ++
      "rated".data.map RAtom.lit ++ [.bnd]),
    wpat "leading",
    .bnd :: ("market".data.map RAtom.lit ++ [.anyc] ++
      "leader".data.map RAtom.lit ++ [.bnd]) ]

/-- Python `detect_overclaims`: run every pattern over the lowercased text,
concatenate the matches and deduplicate.  Python's `list(set(detected))`
has unspecified order; `List.dedup` keeps the same member set and
cardinality. -/
def detect_overclaims (output_text : String) : List String :=
  let text_lower := (strLower output_text).data
  let detected := (superlativePatterns.map (fun p => reFindall p text_lower)).flatten
  (detected.map (fun l => (⟨l⟩ : String))).dedup

/-! ### The numeric/unit error loops of `evaluate_output`
(`src/analysis/metrics.py`, 514–548) -/

/-- Inner loop over `output_numerics` for one extracted spec number:
validate when the lowercased unit strings coincide; collect the failures.
`none` propagates a raised `ZeroDivisionError`. -/
def numErrsForSpecNum (conv : ℚ → String → String → Option ℚ)
    (tol : ℚ) (spec_num : NumEntry) : List NumEntry → Option (List NumErr)
  | [] => some []
  | o :: os =>
      if strLower spec_num.unit = strLower o.unit then
        match validate_numeric_claim conv o.value o.unit
            spec_num.value spec_num.unit tol with
        | none => none
        | some (is_valid, err) =>
            match numErrsForSpecNum conv tol spec_num os with
            | none => none
            | some tail =>
                if is_valid then some tail
                else some ({ spec := spec_num, output := o, error := err } :: tail)
      else numErrsForSpecNum conv tol spec_num os

/-- Loop over the numbers extracted from one spec line. -/
def numErrsForLine (conv : ℚ → String → String → Option ℚ) (tol : ℚ)
    (outputNums : List NumEntry) : List NumEntry → Option (List NumErr)
  | [] => some []
  | sn :: sns =>
      match numErrsForSpecNum conv tol sn outputNums with
      | none => none
      | some here =>
          match numErrsForLine conv tol outputNums sns with
          | none => none
          | some rest => some (here ++ rest)

/-- The `numeric_errors` double loop of `evaluate_output`. -/
def computeNumericErrors (conv : ℚ → String → String → Option ℚ) (tol : ℚ)
    (specs : List String) (outputNums : List NumEntry) : Option (List NumErr)
  :=
  match specs with
  | [] => some []
  | line :: rest =>
      match numErrsForLine conv tol outputNums (extract_numeric_claims line) with
      | none => none
      | some here =>
          match computeNumericErrors conv tol rest outputNums with
          | none => none
          | some tail => some (here ++ tail)

/-- The `unit_errors` loop of `evaluate_output`: similar value
(`|Δ| < 10`) under different lowercased unit strings. -/
def computeUnitErrors (specs : List String) (outputNums : List NumEntry) :
    List UnitErr :=
  specs.flatMap (fun line =>
    (extract_numeric_claims line).flatMap (fun sn =>
      (outputNums.filter (fun o =>
        |o.value - sn.value| < 10 && strLower sn.unit ≠ strLower o.unit)).map
        (fun o => { spec := sn, output := o })))

/-! ### Decision and `evaluate_output` (`src/analysis/metrics.py`, 472–590) -/

/-- The decision chain of `evaluate_output` (lines 558–568). -/
def mkDecision (contradiction_rate : ℚ) (numericErrCount overclaimCount : Nat)
    (hit_rate : ℚ) : Decision :=
  if 0 < contradiction_rate ∨ 0 < numericErrCount then .contradicted
  else if 3 < overclaimCount then .unsupported
  else if 7 / 10 ≤ hit_rate then .supported
  else if 3 / 10 ≤ hit_rate then .ambiguous
  else .unsupported

/-- Assemble the `EvaluationResult` of `evaluate_output` given the
already-computed `numeric_errors` list. -/
def evalBuild (tsr : String → String → ℚ) (run_id output_text : String)
    (product_yaml : ProductYaml) (threshold_authorized threshold_prohibited : ℚ)
    (numeric_errors : List NumErr) : EvaluationResult :=
  let authorized_claims := product_yaml.authorized_claims
  let prohibited_claims := product_yaml.prohibited_or_unsupported_claims
  let auth := check_authorized_claims tsr output_text authorized_claims
    threshold_authorized
  let proh := check_prohibited_claims tsr output_text prohibited_claims
    threshold_prohibited
  let overclaims := detect_overclaims output_text
  let output_numerics := extract_numeric_claims output_text
  { run_id := run_id
    decision := mkDecision proh.1 numeric_errors.length overclaims.length auth.1
    hit_rate := auth.1
    contradiction_rate := proh.1
    unsupported_rate := (overclaims.length : ℚ) /
      ((max authorized_claims.length 1 : Nat) : ℚ)
    ambiguous_rate := 0
    overclaim_rate := calculate_overclaim_rate
      [ if 0 < proh.1 then .contradicted else .supported,
        if 0 < overclaims.length then .unsupported else .supported ]
    matched_authorized := auth.2.1
    violated_prohibited := proh.2
    numeric_errors := numeric_errors
    unit_errors := computeUnitErrors product_yaml.specs output_numerics
    overclaims := overclaims
    details :=
      { auth_scores := auth.2.2
        output_numerics := output_numerics
        num_specs := product_yaml.specs.length
        num_authorized := authorized_claims.length
        num_prohibited := prohibited_claims.length } }

/-- Python `evaluate_output`.  `none` models the uncaught `ZeroDivisionError`
raised from `validate_numeric_claim` when a spec numeric value `0` is
compared against a same-unit output value. -/
def evaluate_output (tsr : String → String → ℚ)
    (conv : ℚ → String → String → Option ℚ)
    (run_id output_text : String) (product_yaml : ProductYaml)
    (threshold_authorized threshold_prohibited numeric_tolerance : ℚ) :
    Option EvaluationResult :=
  (computeNumericErrors conv numeric_tolerance product_yaml.specs
      (extract_numeric_claims output_text)).map
    (evalBuild tsr run_id output_text product_yaml threshold_authorized
      threshold_prohibited)

/-! ### Sentence screening (`src/analysis/bias_screen.py`, 98–199) -/

/-- Python `extract_sentences`: split on `[.!?]+`, strip, drop empties.
(`re.split` on the one-character class with the filter applied afterwards
yields the same list as splitting on separator runs.) -/
def extract_sentences (text : String) : List String :=
  ((text.data.splitOnP (fun c => c = '.' || c = '!' || c = '?')).map
    (fun l => pyStrip l)).filter (· ≠ []) |>.map (fun l => (⟨l⟩ : String))

/-- Lowercase word-token set of a string
(`set(re.findall(r'\w+', s.lower()))`). -/
def tokenSet (s : String) : Finset String :=
  ((wordRuns (strLower s).data).map (fun l => (⟨l⟩ : String))).toFinset

/-- Python `fuzzy_match_claim`: Jaccard similarity of the word-token sets against
a threshold; a claim with no tokens never matches. -/
def fuzzy_match_claim (sentence claim : String) (threshold : ℚ) : Bool :=
  let sentence_words := tokenSet sentence
  let claim_words := tokenSet claim
  if claim_words = ∅ then false
  else
    let inter := sentence_words ∩ claim_words
    let uni := sentence_words ∪ claim_words
    let similarity : ℚ :=
      if uni = ∅ then 0 else (inter.card : ℚ) / (uni.card : ℚ)
    decide (threshold ≤ similarity)

/-- The per-sentence body of `screen_output`'s loop, threading the
accumulated match list (`matches` is appended to, never rebuilt). -/
def screenSentence (authorized_claims prohibited_claims : List String)
    (fuzzy_threshold : ℚ) (ms : List ClaimMatch) (sentence : String) :
    List ClaimMatch :=
  let ms1 :=
    match prohibited_claims.find?
        (fun p => fuzzy_match_claim sentence p fuzzy_threshold) with
    | some p =>
        ms ++ [⟨.contradicted, p, "prohibited", 8 / 10⟩]
    | none => ms
  let foundAuth := authorized_claims.find?
    (fun a => fuzzy_match_claim sentence a fuzzy_threshold)
  let ms2 :=
    match foundAuth with
    | some a =>
        ms1 ++ [⟨.supported, a, "authorized", 8 / 10⟩]
    | none => ms1
  if foundAuth = none ∧ ms2 = [] ∧ 5 < (pySplitWs sentence.data).length then
    ms2 ++ [⟨.unsupported, sentence, "none", 5 / 10⟩]
  else ms2

/-- The sentence loop of `screen_output`. -/
def screenGo (authorized_claims prohibited_claims : List String)
    (fuzzy_threshold : ℚ) : List String → List ClaimMatch → List ClaimMatch
  | [], ms => ms
  | s :: rest, ms =>
      screenGo authorized_claims prohibited_claims fuzzy_threshold rest
        (screenSentence authorized_claims prohibited_claims fuzzy_threshold ms s)

/-- Python `screen_output`. -/
def screen_output (output_text : String)
    (authorized_claims prohibited_claims : List String)
    (fuzzy_threshold : ℚ) : List ClaimMatch :=
  screenGo authorized_claims prohibited_claims fuzzy_threshold
    (extract_sentences output_text) []

/-! ### Bias score (`src/analysis/bias_screen.py`, 332–353) -/

/-- Python `calculate_bias_score`: the `severity_counts` dict is modelled as a
total lookup function (`severity_counts.get(level, 0)`). -/
def calculate_bias_score (severity_counts : String → Nat) : ℚ :=
  let weighted_sum : ℚ :=
    (severity_counts "High" : ℚ) * 10 + (severity_counts "Medium" : ℚ) * 5 +
      (severity_counts "Low" : ℚ) * 2
  min (weighted_sum * 2) 100

/-! ### Concrete oracle instances (used by witnesses and counterexamples)

`tsr0` is a `token_set_ratio` oracle that always scores 0 (any fixed
behaviour is admissible for inputs where the substring branch decides).
`conv0` models pint on same-unit conversions (`Quantity(v, u).to(u)` has
magnitude `v`) and fails on distinct unit strings. -/

def tsr0 : String → String → ℚ := fun _ _ => 0

def conv0 : ℚ → String → String → Option ℚ :=
  fun v u u2 => if u = u2 then some v else none

/-! ### Helper lemmas -/

theorem mkDecision_cases (cr : ℚ) (n o : Nat) (hr : ℚ) :
    ((0 < cr ∨ 0 < n) → mkDecision cr n o hr = .contradicted) ∧
    (¬(0 < cr ∨ 0 < n) → 3 < o → mkDecision cr n o hr = .unsupported) ∧
    (¬(0 < cr ∨ 0 < n) → o ≤ 3 → 7 / 10 ≤ hr → mkDecision cr n o hr = .supported) ∧
    (¬(0 < cr ∨ 0 < n) → o ≤ 3 → hr < 7 / 10 → 3 / 10 ≤ hr →
      mkDecision cr n o hr = .ambiguous) ∧
    (¬(0 < cr ∨ 0 < n) → o ≤ 3 → hr < 3 / 10 → mkDecision cr n o hr = .unsupported)
    := by
  refine ⟨fun h => ?_, fun h h2 => ?_, fun h h2 h3 => ?_,
    fun h h2 h3 h4 => ?_, fun h h2 h3 => ?_⟩ <;>
    simp only [mkDecision] <;> split_ifs <;> first | rfl | omega | linarith

theorem check_authorized_rate_bounds (tsr : String → String → ℚ)
    (text : String) (claims : List String) (th : ℚ) :
    0 ≤ (check_authorized_claims tsr text claims th).1 ∧
      (check_authorized_claims tsr text claims th).1 ≤ 1 := by
  unfold check_authorized_claims
  split
  · simp
  · rename_i hne
    constructor
    · positivity
    · rw [div_le_one (by exact_mod_cast List.length_pos.mpr hne)]
      exact_mod_cast List.length_filter_le _ claims

theorem check_prohibited_rate_bounds (tsr : String → String → ℚ)
    (text : String) (claims : List String) (th : ℚ) :
    0 ≤ (check_prohibited_claims tsr text claims th).1 ∧
      (check_prohibited_claims tsr text claims th).1 ≤ 1 := by
  unfold check_prohibited_claims
  split
  · simp
  · rename_i hne
    constructor
    · positivity
    · rw [div_le_one (by exact_mod_cast List.length_pos.mpr hne)]
      exact_mod_cast List.length_filter_le _ claims

theorem calculate_overclaim_rate_bounds (ds : List Decision) :
    0 ≤ calculate_overclaim_rate ds ∧ calculate_overclaim_rate ds ≤ 1 := by
  unfold calculate_overclaim_rate
  split
  · simp
  · rename_i hne
    constructor
    · positivity
    · rw [div_le_one (by exact_mod_cast List.length_pos.mpr hne)]
      exact_mod_cast List.countP_le_length _

/-- Inversion for `evaluate_output`: a returned result is `evalBuild`
applied to the computed `numeric_errors` list. -/
theorem evaluate_output_inv {tsr : String → String → ℚ}
    {conv : ℚ → String → String → Option ℚ} {rid text : String}
    {P : ProductYaml} {thA thP tol : ℚ} {r : EvaluationResult}
    (h : evaluate_output tsr conv rid text P thA thP tol = some r) :
    ∃ ne, computeNumericErrors conv tol P.specs (extract_numeric_claims text)
        = some ne ∧ evalBuild tsr rid text P thA thP ne = r := by
  rw [evaluate_output, Option.map_eq_some'] at h
  exact h

theorem mkDecision_eq_contradicted_iff (cr : ℚ) (n o : Nat) (hr : ℚ) :
    mkDecision cr n o hr = .contradicted ↔ (0 < cr ∨ 0 < n) := by
  unfold mkDecision
  split_ifs with h1 h2 h3 h4 <;> simp_all

/-! ### C1 — decision precedence of `evaluate_output` -/

/-- C1 (amended): on every input on which `evaluate_output` completes, the
returned decision follows the precedence: Contradicted if
`contradiction_rate > 0` or the numeric-error list is non-empty; otherwise
Unsupported if more than 3 overclaim phrases were detected; otherwise
Supported if `hit_rate ≥ 0.7`; otherwise Ambiguous if `hit_rate ≥ 0.3`;
otherwise Unsupported.  A positive contradiction rate or any numeric error
yields Contradicted no matter how high the hit rate is. -/
theorem C1_decision_precedence (tsr : String → String → ℚ)
    (conv : ℚ → String → String → Option ℚ) (rid text : String)
    (P : ProductYaml) (thA thP tol : ℚ) (r : EvaluationResult)
    (h : evaluate_output tsr conv rid text P thA thP tol = some r) :
    ((0 < r.contradiction_rate ∨ r.numeric_errors ≠ []) →
      r.decision = .contradicted) ∧
    (¬(0 < r.contradiction_rate ∨ r.numeric_errors ≠ []) →
      3 < r.overclaims.length → r.decision = .unsupported) ∧
    (¬(0 < r.contradiction_rate ∨ r.numeric_errors ≠ []) →
      r.overclaims.length ≤ 3 → 7 / 10 ≤ r.hit_rate →
      r.decision = .supported) ∧
    (¬(0 < r.contradiction_rate ∨ r.numeric_errors ≠ []) →
      r.overclaims.length ≤ 3 → r.hit_rate < 7 / 10 → 3 / 10 ≤ r.hit_rate →
      r.decision = .ambiguous) ∧
    (¬(0 < r.contradiction_rate ∨ r.numeric_errors ≠ []) →
      r.overclaims.length ≤ 3 → r.hit_rate < 3 / 10 →
      r.decision = .unsupported) := by
  obtain ⟨ne, hne, hb⟩ := evaluate_output_inv h
  subst hb
  simp only [evalBuild]
  have hmk := mkDecision_cases
    (check_prohibited_claims tsr text P.prohibited_or_unsupported_claims thP).1
    ne.length (detect_overclaims text).length
    (check_authorized_claims tsr text P.authorized_claims thA).1
  have hiff : (0 < (check_prohibited_claims tsr text
      P.prohibited_or_unsupported_claims thP).1 ∨ ne ≠ []) ↔
      (0 < (check_prohibited_claims tsr text
        P.prohibited_or_unsupported_claims thP).1 ∨ 0 < ne.length) := by
    constructor
    · rintro (hc | hn)
      · exact Or.inl hc
      · exact Or.inr (List.length_pos.mpr hn)
    · rintro (hc | hn)
      · exact Or.inl hc
      · exact Or.inr (List.length_pos.mp hn)
  exact ⟨fun hc => hmk.1 (hiff.mp hc),
    fun hc h2 => hmk.2.1 (fun hx => hc (hiff.mpr hx)) h2,
    fun hc h2 h3 => hmk.2.2.1 (fun hx => hc (hiff.mpr hx)) h2 h3,
    fun hc h2 h3 h4 => hmk.2.2.2.1 (fun hx => hc (hiff.mpr hx)) h2 h3 h4,
    fun hc h2 h3 => hmk.2.2.2.2 (fun hx => hc (hiff.mpr hx)) h2 h3⟩

/-- C1 counterexample to the claim as stated: on the input
`output_text = "0 mg"`, `specs = ["0 mg"]`, `evaluate_output` assigns no
decision at all — the Python code raises an uncaught `ZeroDivisionError`
(`relative_error = abs(0.0 - 0.0) / 0.0` in `validate_numeric_claim`),
modelled here as `none`. -/
theorem C1_zero_division_counterexample :
    evaluate_output tsr0 conv0 "c1" "0 mg" ⟨["0 mg"], [], []⟩ 85 80 (1 / 20)
      = none := by decide

/-- Result of `evaluate_output` on the C1 witness input. -/
def rW1 : EvaluationResult :=
  { run_id := "w1", decision := .unsupported, hit_rate := 0,
    contradiction_rate := 0, unsupported_rate := 0, ambiguous_rate := 0,
    overclaim_rate := 0, matched_authorized := [], violated_prohibited := [],
    numeric_errors := [], unit_errors := [], overclaims := [],
    details := ⟨[], [], 0, 0, 0⟩ }

/-- C1 witness: the amended theorem applied at a concrete completing
input (empty product, output `"ok"`), landing in the final
`hit_rate < 0.3 ⇒ Unsupported` branch. -/
theorem C1_witness :
    evaluate_output tsr0 conv0 "w1" "ok" ⟨[], [], []⟩ 85 80 (1 / 20)
      = some rW1 ∧ rW1.decision = .unsupported := by
  have h : evaluate_output tsr0 conv0 "w1" "ok" ⟨[], [], []⟩ 85 80 (1 / 20)
      = some rW1 := by decide
  exact ⟨h, (C1_decision_precedence tsr0 conv0 "w1" "ok" ⟨[], [], []⟩
    85 80 (1 / 20) rW1 h).2.2.2.2 (by decide) (by decide) (by decide)⟩

/-! ### C2 — unit errors and the decision -/

/-- Result of `evaluate_output` on the C2 counterexample input. -/
def rC2 : EvaluationResult :=
  { run_id := "c2", decision := .unsupported, hit_rate := 0,
    contradiction_rate := 0, unsupported_rate := 0, ambiguous_rate := 0,
    overclaim_rate := 0, matched_authorized := [], violated_prohibited := [],
    numeric_errors := [],
    unit_errors := [⟨⟨5, "mg", "5 mg"⟩, ⟨5, "g", "5 g"⟩⟩],
    overclaims := [],
    details := ⟨[], [⟨5, "g", "5 g"⟩], 1, 0, 0⟩ }

/-- C2 counterexample: with `specs = ["5 mg"]` and `output_text = "5 g"`
the unit-error list is non-empty, `contradiction_rate = 0`, the
numeric-error list is empty — and the decision is Unsupported, not
Contradicted.  A detected unit mismatch does not force Contradicted. -/
theorem C2_counterexample :
    evaluate_output tsr0 conv0 "c2" "5 g" ⟨["5 mg"], [], []⟩ 85 80 (1 / 20)
      = some rC2 ∧
    rC2.unit_errors ≠ [] ∧ rC2.contradiction_rate = 0 ∧
    rC2.numeric_errors = [] ∧ rC2.decision ≠ .contradicted := by
  refine ⟨by decide, by decide, by decide, by decide, by decide⟩

/-- C2 (amended): entries recorded in the unit-error list never influence
the decision: on every input on which `evaluate_output` completes, the
decision is Contradicted exactly when `contradiction_rate > 0` or the
numeric-error list is non-empty, independently of `unit_errors`. -/
theorem C2_decision_ignores_unit_errors (tsr : String → String → ℚ)
    (conv : ℚ → String → String → Option ℚ) (rid text : String)
    (P : ProductYaml) (thA thP tol : ℚ) (r : EvaluationResult)
    (h : evaluate_output tsr conv rid text P thA thP tol = some r) :
    r.decision = .contradicted ↔
      (0 < r.contradiction_rate ∨ r.numeric_errors ≠ []) := by
  obtain ⟨ne, hne, hb⟩ := evaluate_output_inv h
  subst hb
  simp only [evalBuild]
  rw [mkDecision_eq_contradicted_iff]
  constructor
  · rintro (hc | hn)
    · exact Or.inl hc
    · exact Or.inr (List.length_pos.mp hn)
  · rintro (hc | hn)
    · exact Or.inl hc
    · exact Or.inr (List.length_pos.mpr hn)

/-- Result of `evaluate_output` on the C2 witness input. -/
def rW2 : EvaluationResult :=
  { run_id := "w2", decision := .unsupported, hit_rate := 0,
    contradiction_rate := 0, unsupported_rate := 0, ambiguous_rate := 0,
    overclaim_rate := 0, matched_authorized := [], violated_prohibited := [],
    numeric_errors := [], unit_errors := [], overclaims := [],
    details := ⟨[], [⟨7, "kg", "7 kg"⟩], 1, 0, 0⟩ }

/-- C2 witness: the amended theorem applied at a concrete completing
input. -/
theorem C2_witness :
    evaluate_output tsr0 conv0 "w2" "7 kg" ⟨["7 kg"], [], []⟩ 85 80 (1 / 20)
      = some rW2 ∧
    (rW2.decision = .contradicted ↔
      (0 < rW2.contradiction_rate ∨ rW2.numeric_errors ≠ [])) := by
  have h : evaluate_output tsr0 conv0 "w2" "7 kg" ⟨["7 kg"], [], []⟩
      85 80 (1 / 20) = some rW2 := by decide
  exact ⟨h, C2_decision_ignores_unit_errors tsr0 conv0 "w2" "7 kg"
    ⟨["7 kg"], [], []⟩ 85 80 (1 / 20) rW2 h⟩

/-! ### C3 — range of the five rate metrics -/

/-- Result of `evaluate_output` on the C3 counterexample input. -/
def rC3 : EvaluationResult :=
  { run_id := "c3", decision := .unsupported, hit_rate := 0,
    contradiction_rate := 0, unsupported_rate := 2, ambiguous_rate := 0,
    overclaim_rate := 1 / 2, matched_authorized := [],
    violated_prohibited := [], numeric_errors := [], unit_errors := [],
    overclaims := ["best", "amazing"],
    details := ⟨[], [], 0, 0, 0⟩ }

/-- C3 counterexample: with no authorized claims and
`output_text = "best amazing"` (two detected overclaim phrases),
`unsupported_rate = 2`, outside `[0, 1]`. -/
theorem C3_counterexample :
    evaluate_output tsr0 conv0 "c3" "best amazing" ⟨[], [], []⟩ 85 80 (1 / 20)
      = some rC3 ∧
    rC3.unsupported_rate = 2 ∧ ¬ rC3.unsupported_rate ≤ 1 := by
  refine ⟨by decide, by decide, by decide⟩

/-- C3 (amended): on every input on which `evaluate_output` completes,
`hit_rate`, `contradiction_rate`, `ambiguous_rate` and `overclaim_rate`
lie in `[0, 1]`; `unsupported_rate` is non-negative but equals
`len(overclaims) / max(len(authorized_claims), 1)`, which exceeds 1
whenever more overclaim phrases are detected than
`max(len(authorized_claims), 1)`. -/
theorem C3_rate_bounds (tsr : String → String → ℚ)
    (conv : ℚ → String → String → Option ℚ) (rid text : String)
    (P : ProductYaml) (thA thP tol : ℚ) (r : EvaluationResult)
    (h : evaluate_output tsr conv rid text P thA thP tol = some r) :
    (0 ≤ r.hit_rate ∧ r.hit_rate ≤ 1) ∧
    (0 ≤ r.contradiction_rate ∧ r.contradiction_rate ≤ 1) ∧
    (0 ≤ r.ambiguous_rate ∧ r.ambiguous_rate ≤ 1) ∧
    (0 ≤ r.overclaim_rate ∧ r.overclaim_rate ≤ 1) ∧
    0 ≤ r.unsupported_rate ∧
    r.unsupported_rate = (r.overclaims.length : ℚ) /
      ((max P.authorized_claims.length 1 : Nat) : ℚ) := by
  obtain ⟨ne, hne, hb⟩ := evaluate_output_inv h
  subst hb
  simp only [evalBuild]
  refine ⟨check_authorized_rate_bounds tsr text P.authorized_claims thA,
    check_prohibited_rate_bounds tsr text
      P.prohibited_or_unsupported_claims thP,
    by norm_num, calculate_overclaim_rate_bounds _, ?_, by trivial⟩
  positivity

/-- Result of `evaluate_output` on the C3 witness input. -/
def rW3 : EvaluationResult :=
  { run_id := "w3", decision := .supported, hit_rate := 1,
    contradiction_rate := 0, unsupported_rate := 0, ambiguous_rate := 0,
    overclaim_rate := 0, matched_authorized := ["good"],
    violated_prohibited := [], numeric_errors := [], unit_errors := [],
    overclaims := [],
    details := ⟨[("good", 100)], [], 0, 1, 0⟩ }

/-- C3 witness: the amended theorem applied at a concrete completing
input. -/
theorem C3_witness :
    evaluate_output tsr0 conv0 "w3" "good stuff" ⟨[], ["good"], []⟩
      85 80 (1 / 20) = some rW3 ∧
    0 ≤ rW3.hit_rate ∧ rW3.hit_rate ≤ 1 := by
  have h : evaluate_output tsr0 conv0 "w3" "good stuff" ⟨[], ["good"], []⟩
      85 80 (1 / 20) = some rW3 := by decide
  exact ⟨h, (C3_rate_bounds tsr0 conv0 "w3" "good stuff" ⟨[], ["good"], []⟩
    85 80 (1 / 20) rW3 h).1⟩

/-! ### C5 — what the rate metrics actually compute -/

/-- Result of `evaluate_output` on the C5 counterexample input. -/
def rC5 : EvaluationResult :=
  { run_id := "c5", decision := .unsupported, hit_rate := 0,
    contradiction_rate := 0, unsupported_rate := 1, ambiguous_rate := 0,
    overclaim_rate := 1 / 2, matched_authorized := [],
    violated_prohibited := [], numeric_errors := [], unit_errors := [],
    overclaims := ["best"],
    details := ⟨[], [], 0, 0, 0⟩ }

/-- C5 counterexample: with an empty `authorized_claims` set and
`output_text = "best"`, `unsupported_rate = 1 ≠ 0` — so `unsupported_rate`
is neither `count(category)/total_claims` nor `0.0` on an empty claim
set. -/
theorem C5_counterexample :
    evaluate_output tsr0 conv0 "c5" "best" ⟨[], [], []⟩ 85 80 (1 / 20)
      = some rC5 ∧
    rC5.unsupported_rate = 1 ∧ rC5.unsupported_rate ≠ 0 := by
  refine ⟨by decide, by decide, by decide⟩

/-- C5 (amended): on every input on which `evaluate_output` completes,
`hit_rate = len(matched)/len(authorized_claims)` (0.0 on an empty list),
`contradiction_rate = len(violated)/len(prohibited)` (0.0 on an empty
list), `ambiguous_rate` is the constant 0.0, `overclaim_rate` is
`(contradicted_flag + unsupported_flag)/2` over the two-element synthetic
decision list, and `unsupported_rate = len(overclaims) /
max(len(authorized_claims), 1)`, which is not a category count over the
claims and need not be 0 on an empty claim set. -/
theorem C5_rate_formulas (tsr : String → String → ℚ)
    (conv : ℚ → String → String → Option ℚ) (rid text : String)
    (P : ProductYaml) (thA thP tol : ℚ) (r : EvaluationResult)
    (h : evaluate_output tsr conv rid text P thA thP tol = some r) :
    r.hit_rate = (if P.authorized_claims = [] then 0 else
      (r.matched_authorized.length : ℚ) / (P.authorized_claims.length : ℚ)) ∧
    (P.authorized_claims = [] → r.hit_rate = 0) ∧
    r.contradiction_rate = (if P.prohibited_or_unsupported_claims = [] then 0
      else (r.violated_prohibited.length : ℚ) /
        (P.prohibited_or_unsupported_claims.length : ℚ)) ∧
    (P.prohibited_or_unsupported_claims = [] → r.contradiction_rate = 0) ∧
    r.ambiguous_rate = 0 ∧
    r.overclaim_rate = ((if 0 < r.contradiction_rate then (1 : ℚ) else 0) +
      (if 0 < r.overclaims.length then (1 : ℚ) else 0)) / 2 ∧
    r.unsupported_rate = (r.overclaims.length : ℚ) /
      ((max P.authorized_claims.length 1 : Nat) : ℚ) := by
  obtain ⟨ne, hne, hb⟩ := evaluate_output_inv h
  subst hb
  simp only [evalBuild]
  refine ⟨?_, ?_, ?_, ?_, by trivial, ?_, by trivial⟩
  · unfold check_authorized_claims
    split <;> simp
  · intro hA
    simp [check_authorized_claims, hA]
  · unfold check_prohibited_claims
    split <;> simp
  · intro hP
    simp [check_prohibited_claims, hP]
  · by_cases hc : 0 < (check_prohibited_claims tsr text
      P.prohibited_or_unsupported_claims thP).1 <;>
      by_cases ho : 0 < (detect_overclaims text).length <;>
      simp [calculate_overclaim_rate, isProblematic, hc, ho]

/-- Result of `evaluate_output` on the C5 witness input. -/
def rW5 : EvaluationResult :=
  { run_id := "w5", decision := .supported, hit_rate := 1,
    contradiction_rate := 0, unsupported_rate := 1, ambiguous_rate := 0,
    overclaim_rate := 1 / 2, matched_authorized := ["never better"],
    violated_prohibited := [], numeric_errors := [], unit_errors := [],
    overclaims := ["never"],
    details := ⟨[("never better", 100)], [], 0, 1, 1⟩ }

/-- C5 witness: the amended theorem applied at a concrete completing
input (one authorized claim matched, one overclaim phrase). -/
theorem C5_witness :
    evaluate_output tsr0 conv0 "w5" "never better"
      ⟨[], ["never better"], ["worse than"]⟩ 85 80 (1 / 20) = some rW5 ∧
    rW5.overclaim_rate = ((if 0 < rW5.contradiction_rate then (1 : ℚ) else 0) +
      (if 0 < rW5.overclaims.length then (1 : ℚ) else 0)) / 2 := by
  have h : evaluate_output tsr0 conv0 "w5" "never better"
      ⟨[], ["never better"], ["worse than"]⟩ 85 80 (1 / 20) = some rW5 := by
    decide
  exact ⟨h, (C5_rate_formulas tsr0 conv0 "w5" "never better"
    ⟨[], ["never better"], ["worse than"]⟩ 85 80 (1 / 20) rW5 h).2.2.2.2.2.1⟩

/-! ### C6 — an exact prohibited substring forces Contradicted -/

/-- C6 counterexample to the claim as stated: an output text containing
the prohibited claim `"cures"` verbatim for which `evaluate_output`
nevertheless returns no decision at all — the `"0 mg"` numeric
comparison raises the uncaught `ZeroDivisionError` before the decision is
reached. -/
theorem C6_counterexample :
    ("cures" ∈ (⟨["0 mg"], [], ["cures"]⟩ : ProductYaml).prohibited_or_unsupported_claims) ∧
    listHasSub (strLower "It cures 0 mg.").data (strLower "cures").data
      = true ∧
    evaluate_output tsr0 conv0 "c6" "It cures 0 mg." ⟨["0 mg"], [], ["cures"]⟩
      85 80 (1 / 20) = none := by
  refine ⟨by decide, by decide, by decide⟩

/-- C6 (amended): if some prohibited claim occurs in the output as a
case-insensitive literal substring, then `fuzzy_match` reports
`(True, 100.0)`, and on every such input on which `evaluate_output`
completes, the claim lands in the violated list with
`contradiction_rate > 0` and the decision is Contradicted — regardless
of which authorized claims also match. -/
theorem C6_prohibited_substring_contradicted (tsr : String → String → ℚ)
    (conv : ℚ → String → String → Option ℚ) (rid text : String)
    (P : ProductYaml) (thA thP tol : ℚ) (claim : String)
    (r : EvaluationResult)
    (hmem : claim ∈ P.prohibited_or_unsupported_claims)
    (hsub : listHasSub (strLower text).data (strLower claim).data = true)
    (h : evaluate_output tsr conv rid text P thA thP tol = some r) :
    fuzzy_match tsr text claim thP = (true, 100) ∧
    0 < r.contradiction_rate ∧
    claim ∈ r.violated_prohibited ∧
    r.decision = .contradicted := by
  have hfm : fuzzy_match tsr text claim thP = (true, 100) := by
    simp [fuzzy_match, hsub]
  have hPne : P.prohibited_or_unsupported_claims ≠ [] := by
    intro hh
    rw [hh] at hmem
    exact absurd hmem (List.not_mem_nil claim)
  obtain ⟨ne, hne, hb⟩ := evaluate_output_inv h
  subst hb
  simp only [evalBuild]
  simp only [check_prohibited_claims, if_neg hPne]
  have hviol : claim ∈ P.prohibited_or_unsupported_claims.filter
      (fun c => (fuzzy_match tsr text c thP).1) := by
    refine List.mem_filter.mpr ⟨hmem, ?_⟩
    rw [hfm]
  have hcr : 0 < ((P.prohibited_or_unsupported_claims.filter
        (fun c => (fuzzy_match tsr text c thP).1)).length : ℚ) /
      (P.prohibited_or_unsupported_claims.length : ℚ) := by
    apply div_pos
    · exact_mod_cast List.length_pos.mpr (List.ne_nil_of_mem hviol)
    · exact_mod_cast List.length_pos.mpr hPne
  refine ⟨hfm, hcr, hviol, ?_⟩
  exact (mkDecision_cases _ _ _ _).1 (Or.inl hcr)

/-- Result of `evaluate_output` on the C6 witness input. -/
def rW6 : EvaluationResult :=
  { run_id := "w6", decision := .contradicted, hit_rate := 0,
    contradiction_rate := 1, unsupported_rate := 0, ambiguous_rate := 0,
    overclaim_rate := 1 / 2, matched_authorized := [],
    violated_prohibited := ["cures"], numeric_errors := [], unit_errors := [],
    overclaims := [],
    details := ⟨[], [], 0, 0, 1⟩ }

/-- C6 witness: the theorem applied at a concrete input whose output text
contains the prohibited claim `"cures"` verbatim. -/
theorem C6_witness :
    ("cures" ∈ (⟨[], [], ["cures"]⟩ : ProductYaml).prohibited_or_unsupported_claims) ∧
    listHasSub (strLower "It cures.").data (strLower "cures").data = true ∧
    evaluate_output tsr0 conv0 "w6" "It cures." ⟨[], [], ["cures"]⟩
      85 80 (1 / 20) = some rW6 ∧
    rW6.decision = .contradicted := by
  have h : evaluate_output tsr0 conv0 "w6" "It cures." ⟨[], [], ["cures"]⟩
      85 80 (1 / 20) = some rW6 := by decide
  exact ⟨by decide, by decide, h,
    (C6_prohibited_substring_contradicted tsr0 conv0 "w6" "It cures."
      ⟨[], [], ["cures"]⟩ 85 80 (1 / 20) "cures" rW6 (by decide) (by decide)
      h).2.2.2⟩

/-! ### C4 — the numeric tolerance boundary -/

/-- On identical unit strings (with any pint behaviour for that unit) and
a non-zero spec value, `validate_numeric_claim` reduces to the relative
error check `|claim - spec| / spec ≤ tolerance`. -/
theorem validate_same_unit (conv : ℚ → String → String → Option ℚ)
    (u : String) (cv sv tol : ℚ)
    (hconv : conv cv u u = some cv ∨ conv cv u u = none)
    (hsv : sv ≠ 0) :
    validate_numeric_claim conv cv u sv u tol =
      if |cv - sv| / sv ≤ tol then some (true, none)
      else some (false, some "Numeric mismatch") := by
  rcases hconv with hc | hc <;> simp [validate_numeric_claim, hc, hsv]

/-- C4 counterexample: at `spec_value = 1`, `tolerance = 0.05`, identical
unit strings, the claim value `1.05 = spec_value * 1.05` is accepted
(`is_valid = True`, no error message) because the source checks
`relative_error <= tolerance` — the claim demands `is_valid = False`. -/
theorem C4_counterexample :
    validate_numeric_claim conv0 (21 / 20) "mg" 1 "mg" (1 / 20)
      = some (true, none) := by decide

/-- C4 (amended): with `tolerance = 0.05`, identical unit strings, and
positive `spec_value`, `validate_numeric_claim` accepts
`spec_value * 1.049` and also accepts the exact boundary
`spec_value * 1.05` (relative error exactly equal to the tolerance passes
the `<=` check); a value with relative error strictly above the
tolerance, e.g. `spec_value * 1.051`, is flagged invalid with an error
message. -/
theorem C4_tolerance_boundary (conv : ℚ → String → String → Option ℚ)
    (sv : ℚ) (u : String)
    (hconv : ∀ v : ℚ, conv v u u = some v ∨ conv v u u = none)
    (hsv : 0 < sv) :
    validate_numeric_claim conv (sv * (1049 / 1000)) u sv u (1 / 20)
      = some (true, none) ∧
    validate_numeric_claim conv (sv * (21 / 20)) u sv u (1 / 20)
      = some (true, none) ∧
    validate_numeric_claim conv (sv * (1051 / 1000)) u sv u (1 / 20)
      = some (false, some "Numeric mismatch") := by
  have hne : sv ≠ 0 := ne_of_gt hsv
  have key : ∀ k : ℚ, 1 ≤ k → |sv * k - sv| / sv = k - 1 := by
    intro k hk
    rw [show sv * k - sv = sv * (k - 1) by ring, abs_mul, abs_of_pos hsv,
      abs_of_nonneg (by linarith), mul_div_cancel_left₀ _ hne]
  refine ⟨?_, ?_, ?_⟩ <;>
    rw [validate_same_unit conv u _ sv (1 / 20) (hconv _) hne,
      key _ (by norm_num)]
  · rw [if_pos (by norm_num)]
  · rw [if_pos (by norm_num)]
  · rw [if_neg (by norm_num)]

/-- C4 witness: the amended theorem applied at `spec_value = 1`, unit
`"mg"`, with the pint oracle `conv0`. -/
theorem C4_witness :
    (0 : ℚ) < 1 ∧
    validate_numeric_claim conv0 (1 * (1049 / 1000)) "mg" 1 "mg" (1 / 20)
      = some (true, none) ∧
    validate_numeric_claim conv0 (1 * (21 / 20)) "mg" 1 "mg" (1 / 20)
      = some (true, none) ∧
    validate_numeric_claim conv0 (1 * (1051 / 1000)) "mg" 1 "mg" (1 / 20)
      = some (false, some "Numeric mismatch") := by
  have hconv : ∀ v : ℚ, conv0 v "mg" "mg" = some v ∨ conv0 v "mg" "mg" = none :=
    fun v => Or.inl (by simp [conv0])
  exact ⟨one_pos, C4_tolerance_boundary conv0 1 "mg" hconv one_pos⟩

/-! ### C7 — the bias score -/

/-- C7: `calculate_bias_score` returns
`min(2 * (10*High + 5*Medium + 2*Low), 100)`; it is 0 on all-zero counts,
always lies in `[0, 100]`, and saturates at exactly 100 for `High = 10`
(other counts zero). -/
theorem C7_bias_score (sc : String → Nat) :
    calculate_bias_score sc =
      min (2 * (10 * (sc "High" : ℚ) + 5 * (sc "Medium" : ℚ) +
        2 * (sc "Low" : ℚ))) 100 ∧
    0 ≤ calculate_bias_score sc ∧ calculate_bias_score sc ≤ 100 ∧
    (sc "High" = 0 → sc "Medium" = 0 → sc "Low" = 0 →
      calculate_bias_score sc = 0) ∧
    (sc "High" = 10 → sc "Medium" = 0 → sc "Low" = 0 →
      calculate_bias_score sc = 100) := by
  unfold calculate_bias_score
  refine ⟨?_, ?_, min_le_right _ _, ?_, ?_⟩
  · show min (((sc "High" : ℚ) * 10 + (sc "Medium" : ℚ) * 5 +
      (sc "Low" : ℚ) * 2) * 2) 100 = _
    congr 1
    ring
  · exact le_min (by positivity) (by norm_num)
  · intro h1 h2 h3
    rw [h1, h2, h3]
    norm_num
  · intro h1 h2 h3
    rw [h1, h2, h3]
    norm_num

/-- C7 witness: the theorem's all-zero and saturation consequences at
concrete count maps. -/
theorem C7_witness :
    calculate_bias_score (fun _ => 0) = 0 ∧
    calculate_bias_score (fun s => if s = "High" then 10 else 0) = 100 := by
  constructor
  · exact (C7_bias_score (fun _ => 0)).2.2.2.1 rfl rfl rfl
  · exact (C7_bias_score (fun s => if s = "High" then 10 else 0)).2.2.2.2
      (by decide) (by decide) (by decide)

/-! ### C8 — numeric extraction and commas -/

/-- C8 counterexample: `"3,5 mg"` yields the numeric value 35 (the comma
is removed, `"3,5" → "35"`), not 3.5 as the claim states. -/
theorem C8_counterexample :
    extract_numeric_claims "3,5 mg" = [⟨35, "mg", "3,5 mg"⟩] ∧
    ¬ ∃ e ∈ extract_numeric_claims "3,5 mg", e.value = 7 / 2 := by
  refine ⟨by decide, by decide⟩

/-- C8 (amended): `extract_numeric_claims` removes commas from the number
token before parsing (a comma acts as a thousands separator, not a
decimal comma): `"3,5 mg"` yields value 35 and `"Take 1,250 mg now"`
yields 1250; the parse of the comma-stripped capture never fails (the
`except ValueError` skip path is unreachable); each entry carries up to
20 characters of surrounding context on each side of the match
(truncated at the text ends, then stripped). -/
theorem C8_comma_and_context :
    extract_numeric_claims "3,5 mg" = [⟨35, "mg", "3,5 mg"⟩] ∧
    extract_numeric_claims "Take 1,250 mg now"
      = [⟨1250, "mg", "Take 1,250 mg now"⟩] ∧
    extract_numeric_claims
        "aaaaaaaaaaaaaaaaaaaaaaaaaa 5 mg bbbbbbbbbbbbbbbbbbbbbbbbbb"
      = [⟨5, "mg", "aaaaaaaaaaaaaaaaaaa 5 mg bbbbbbbbbbbbbbbbbbb"⟩] := by
  refine ⟨by decide, by decide, by decide⟩

/-! ### C9 — Jaccard matcher safety -/

/-- C9: `fuzzy_match_claim` returns `False` whenever the claim's
lowercase word-token set is empty; otherwise it returns whether the
Jaccard similarity `|∩| / |∪|` meets the threshold, and the union it
divides by is non-empty (so the division is never a division by zero). -/
theorem C9_jaccard (sentence claim : String) (threshold : ℚ) :
    (tokenSet claim = ∅ → fuzzy_match_claim sentence claim threshold = false) ∧
    (tokenSet claim ≠ ∅ →
      0 < (tokenSet sentence ∪ tokenSet claim).card ∧
      fuzzy_match_claim sentence claim threshold =
        decide (threshold ≤
          ((tokenSet sentence ∩ tokenSet claim).card : ℚ) /
          ((tokenSet sentence ∪ tokenSet claim).card : ℚ))) := by
  constructor
  · intro h
    simp [fuzzy_match_claim, h]
  · intro h
    have huni : tokenSet sentence ∪ tokenSet claim ≠ ∅ := by
      intro hu
      exact h (Finset.union_eq_empty.mp hu).2
    refine ⟨Finset.card_pos.mpr (Finset.nonempty_iff_ne_empty.mpr huni), ?_⟩
    simp [fuzzy_match_claim, h, huni]

/-- C9 witness: the theorem applied at concrete strings — a token-free
claim never matches, and a real claim has a non-empty union. -/
theorem C9_witness :
    fuzzy_match_claim "zero calories drink" "!!!" (2 / 5) = false ∧
    0 < (tokenSet "this drink has zero calories" ∪
      tokenSet "zero calories").card := by
  constructor
  · exact (C9_jaccard "zero calories drink" "!!!" (2 / 5)).1 (by decide)
  · exact ((C9_jaccard "this drink has zero calories" "zero calories"
      (2 / 5)).2 (by decide)).1

/-! ### C10 — at most one Unsupported match, always first -/

/-- Does a `ClaimMatch` carry the Unsupported decision? -/
def isUnsup (m : ClaimMatch) : Bool := m.decision == Decision.unsupported

/-- Processing one sentence over a non-empty accumulator only appends
Contradicted/Supported matches (the Unsupported branch is gated on the
whole accumulated list being empty). -/
theorem screenSentence_of_ne_nil (auth proh : List String) (thr : ℚ)
    (ms : List ClaimMatch) (s : String) (h : ms ≠ []) :
    ∃ t, screenSentence auth proh thr ms s = ms ++ t ∧
      t.countP isUnsup = 0 := by
  cases hp : proh.find? (fun p => fuzzy_match_claim s p thr) with
  | none =>
      cases ha : auth.find? (fun a => fuzzy_match_claim s a thr) with
      | none =>
          refine ⟨[], ?_, rfl⟩
          simp [screenSentence, hp, ha, h]
      | some a =>
          refine ⟨[⟨.supported, a, "authorized", 8 / 10⟩], ?_, rfl⟩
          simp [screenSentence, hp, ha, h]
  | some p =>
      cases ha : auth.find? (fun a => fuzzy_match_claim s a thr) with
      | none =>
          refine ⟨[⟨.contradicted, p, "prohibited", 8 / 10⟩], ?_, rfl⟩
          simp [screenSentence, hp, ha, h]
      | some a =>
          refine ⟨[⟨.contradicted, p, "prohibited", 8 / 10⟩,
            ⟨.supported, a, "authorized", 8 / 10⟩], ?_, rfl⟩
          simp [screenSentence, hp, ha, h]

/-- Once the accumulator is non-empty, the rest of the sentence loop only
appends matches, none of them Unsupported. -/
theorem screenGo_of_ne_nil (auth proh : List String) (thr : ℚ) :
    ∀ (sents : List String) (ms : List ClaimMatch), ms ≠ [] →
      ∃ t, screenGo auth proh thr sents ms = ms ++ t ∧
        t.countP isUnsup = 0 := by
  intro sents
  induction sents with
  | nil =>
      intro ms _
      exact ⟨[], by simp [screenGo], rfl⟩
  | cons s rest ih =>
      intro ms h
      obtain ⟨t0, he0, hc0⟩ := screenSentence_of_ne_nil auth proh thr ms s h
      have h2 : ms ++ t0 ≠ [] := by
        intro hh
        exact h (List.append_eq_nil.mp hh).1
      obtain ⟨t1, he1, hc1⟩ := ih (ms ++ t0) h2
      refine ⟨t0 ++ t1, ?_, ?_⟩
      · show screenGo auth proh thr rest (screenSentence auth proh thr ms s)
          = ms ++ (t0 ++ t1)
        rw [he0, he1, List.append_assoc]
      · rw [List.countP_append, hc0, hc1]

/-- Processing one sentence from the empty accumulator yields at most one
Unsupported match, and if one is produced it is the head. -/
theorem screenSentence_nil_cases (auth proh : List String) (thr : ℚ)
    (s : String) :
    (screenSentence auth proh thr [] s).countP isUnsup ≤ 1 ∧
    ∀ m ∈ screenSentence auth proh thr [] s, isUnsup m = true →
      (screenSentence auth proh thr [] s).head? = some m := by
  cases hp : proh.find? (fun p => fuzzy_match_claim s p thr) with
  | none =>
      cases ha : auth.find? (fun a => fuzzy_match_claim s a thr) with
      | none =>
          by_cases hw : 5 < (pySplitWs s.data).length
          · constructor
            · simp [screenSentence, hp, ha, hw, isUnsup]
            · intro m hm _
              simp only [screenSentence, hp, ha, hw] at hm ⊢
              simp at hm
              simp [hm]
          · constructor
            · simp [screenSentence, hp, ha, hw]
            · intro m hm _
              simp [screenSentence, hp, ha, hw] at hm
      | some a =>
          constructor
          · simp [screenSentence, hp, ha, isUnsup]
          · intro m hm hu
            simp [screenSentence, hp, ha] at hm
            rw [hm] at hu
            simp [isUnsup] at hu
  | some p =>
      cases ha : auth.find? (fun a => fuzzy_match_claim s a thr) with
      | none =>
          constructor
          · simp [screenSentence, hp, ha, isUnsup]
          · intro m hm hu
            simp [screenSentence, hp, ha] at hm
            rw [hm] at hu
            simp [isUnsup] at hu
      | some a =>
          constructor
          · simp [screenSentence, hp, ha, isUnsup]
          · intro m hm hu
            simp [screenSentence, hp, ha] at hm
            rcases hm with hm | hm <;> rw [hm] at hu <;> simp [isUnsup] at hu

/-- C10: in `screen_output`, the Unsupported heuristic fires only while
the whole accumulated match list is still empty; consequently the
returned list contains at most one Unsupported `ClaimMatch`, and if
present it is the first element. -/
theorem C10_single_unsupported (text : String)
    (auth proh : List String) (thr : ℚ) :
    (screen_output text auth proh thr).countP isUnsup ≤ 1 ∧
    ∀ m ∈ screen_output text auth proh thr, m.decision = .unsupported →
      (screen_output text auth proh thr).head? = some m := by
  unfold screen_output
  generalize extract_sentences text = sents
  induction sents with
  | nil =>
      constructor
      · simp [screenGo]
      · intro m hm _
        simp [screenGo] at hm
  | cons s rest ih =>
      simp only [screenGo]
      cases hs0 : screenSentence auth proh thr [] s with
      | nil => exact ih
      | cons m0 t0 =>
          have hne : screenSentence auth proh thr [] s ≠ [] := by
            rw [hs0]
            exact List.cons_ne_nil m0 t0
          obtain ⟨t, he, hc⟩ := screenGo_of_ne_nil auth proh thr rest _ hne
          rw [hs0] at he
          rw [he]
          obtain ⟨hcount, hmem⟩ := screenSentence_nil_cases auth proh thr s
          rw [hs0] at hcount hmem
          constructor
          · rw [List.countP_append, hc]
            simpa using hcount
          · intro m hm hdec
            have hu : isUnsup m = true := by
              simp [isUnsup, hdec]
            rcases List.mem_append.mp hm with h1 | h2
            · have hh := hmem m h1 hu
              simpa using hh
            · have := List.countP_eq_zero.mp hc m h2
              simp [this] at hu

/-- C10 witness: the theorem applied at a concrete input producing one
Unsupported match (a seven-word sentence matching no claims). -/
theorem C10_witness :
    (screen_output "one two three four five six seven" [] [] (2 / 5)).head?
      = some ⟨.unsupported, "one two three four five six seven", "none", 1 / 2⟩
    := by
  have hm : (⟨.unsupported, "one two three four five six seven", "none",
      1 / 2⟩ : ClaimMatch) ∈
      screen_output "one two three four five six seven" [] [] (2 / 5) := by
    decide
  exact (C10_single_unsupported "one two three four five six seven" [] []
    (2 / 5)).2 _ hm rfl

end LlmApp
